import Mathlib

/-!
Verification of the chat-streaming frontend of the `learn-0702` repository.

The definitions below are a shallow embedding of the JavaScript sources:

* `src/frontend/src/services/apiService.js` — in particular `getAiReplyStream`
  (request body construction, the fragment/complete/error callback protocol)
  and the default `model = 'gpt-4o-mini'` parameter;
* the chat page component (`ChatPage`) — `handleSendMessage` with its
  optimistic user message, streaming assistant placeholder, per-chunk append,
  completion-time persistence write and reconciliation, error cleanup, and the
  chat input form whose input and submit button carry `disabled={isLoading}`;
* the signup page component (`SignupPage`) — `handleSubmit` with its
  client-side password-length validation and the signup-then-login flow.

Network effects are made explicit: the outcome of the upstream token stream is
a parameter (`UpstreamOutcome`), the results of the two backend
message-persistence calls are `Except` parameters, and the list of backend API
calls actually issued during a turn is returned alongside the final UI state.
-/

namespace AiChat

/-- A message object as held in the ChatPage `messages` state: the fields
built by `handleSendMessage` for the optimistic user message and the
assistant placeholder (`id`, `content`, `sender`, `timestamp`,
`conversation_id`, `isStreaming`). -/
structure Message where
  id : String
  content : String
  sender : String
  timestamp : Nat
  conversation_id : String
  isStreaming : Bool
deriving Repr, DecidableEq

/-- The ChatPage component state relevant to a chat turn: the `messages`
list, the `newMessage` input value, the `isLoading` flag and the `error`
banner. -/
structure ChatState where
  messages : List Message
  newMessage : String
  isLoading : Bool
  error : String
deriving Repr, DecidableEq

/-- JavaScript `String.prototype.trim()`: remove whitespace from both ends
of the string. -/
def jsTrim (s : String) : String :=
  ⟨((s.data.dropWhile Char.isWhitespace).reverse.dropWhile Char.isWhitespace).reverse⟩

/-- A backend API call issued by the frontend. `sendMessage conv content
sender` is `apiService.sendMessage(conversationId, content, sender)`, i.e.
POST `/conversations/{id}/messages/`. -/
inductive ApiCall where
  | sendMessage (conversationId content sender : String)
deriving Repr, DecidableEq

/-- The JSON body `getAiReplyStream` sends to the relay chat endpoint:
`{ user_id, session_id, message, model }`. -/
structure ChatRequestBody where
  user_id : String
  session_id : String
  message : String
  model : String
deriving Repr, DecidableEq

/-- Body construction in `getAiReplyStream`: the `model` parameter defaults
to `'gpt-4o-mini'` when the caller omits it or passes `undefined`
(JavaScript default parameters apply exactly when the argument is
`undefined`, modelled as `none`). -/
def getAiReplyStreamBody (userId sessionId message : String)
    (model : Option String) : ChatRequestBody :=
  { user_id := userId
    session_id := sessionId
    message := message
    model := model.getD "gpt-4o-mini" }

/-- The ChatPage calls `getAiReplyStream` with `undefined` for the model
argument (intending the relay-side default). -/
def chatPageModelArg : Option String := none

/-- Outcome of the upstream completion stream as observed by the reader loop
in `getAiReplyStream`: either the transport delivers a list of text chunks
and then closes normally (`ok`), or it delivers some chunks and then the
fetch/read throws (`fail`), carrying the error message. -/
inductive UpstreamOutcome where
  | ok (chunks : List String)
  | fail (delivered : List String) (err : String)
deriving Repr, DecidableEq

/-- One callback invocation made by `getAiReplyStream` towards its caller:
`onChunk`, `onComplete`, or `onError`. -/
inductive StreamEvent where
  | chunk (c : String)
  | complete
  | error (e : String)
deriving Repr, DecidableEq

/-- The callback sequence `getAiReplyStream` produces for a given upstream
outcome: the reader loop calls `onChunk` once per decoded chunk, in arrival
order; `onComplete()` runs after the loop ends normally; a throw anywhere in
the `try` block skips `onComplete` and reaches the `catch`, which calls
`onError(error)`. -/
def getAiReplyStreamEvents : UpstreamOutcome → List StreamEvent
  | .ok chunks => chunks.map StreamEvent.chunk ++ [StreamEvent.complete]
  | .fail delivered err => delivered.map StreamEvent.chunk ++ [StreamEvent.error err]

/-- The optimistic user message built at the top of `handleSendMessage`. -/
def userMessageForDisplay (content convId tempUserId : String) (now : Nat) : Message :=
  { id := tempUserId
    content := content
    sender := "user"
    timestamp := now
    conversation_id := convId
    isStreaming := false }

/-- The streaming assistant placeholder built at the top of
`handleSendMessage` (content initially empty, `isStreaming: true`). -/
def aiMessagePlaceholder (convId tempAiId : String) (now : Nat) : Message :=
  { id := tempAiId
    content := ""
    sender := "ai"
    timestamp := now
    conversation_id := convId
    isStreaming := true }

/-- State after the synchronous head of `handleSendMessage`: the input is
cleared, the optimistic user message and the assistant placeholder are
appended to `messages`, `isLoading` is set, and the error banner is
cleared. -/
def startTurnState (st : ChatState) (convId tempUserId tempAiId : String)
    (now : Nat) : ChatState :=
  { st with
    newMessage := ""
    messages := (st.messages ++ [userMessageForDisplay st.newMessage convId tempUserId now])
      ++ [aiMessagePlaceholder convId tempAiId now]
    isLoading := true
    error := "" }

/-- The reconciliation map `prev.map(m => m.id === tempId ?
\x7b ...persisted, id: persisted.id || tempId \x7d : m)` used for both the user
message and the assistant message: the matching entry is replaced by the
persisted record, keeping the temporary id when the persisted record's id is
falsy (empty). -/
def reconcileWith (tempId : String) (persisted : Message)
    (msgs : List Message) : List Message :=
  msgs.map fun m =>
    if m.id = tempId then
      { persisted with id := if persisted.id = "" then tempId else persisted.id }
    else m

/-- The `onChunk` state update: append the chunk to the content of the
message whose id is the placeholder's. -/
def appendChunkToPlaceholder (tempAiId chunk : String)
    (msgs : List Message) : List Message :=
  msgs.map fun m =>
    if m.id = tempAiId then { m with content := m.content ++ chunk } else m

/-- Processing a list of chunks in arrival order, each through the `onChunk`
update. -/
def applyChunks (tempAiId : String) (chunks : List String)
    (msgs : List Message) : List Message :=
  chunks.foldl (fun acc c => appendChunkToPlaceholder tempAiId c acc) msgs

/-- One step of the first pass of `onComplete`: a message matching the
placeholder id has `isStreaming` cleared and its content captured as
`finalAiContent`; any other message passes through unchanged. -/
def markStep (tempAiId : String) (acc : List Message × String)
    (m : Message) : List Message × String :=
  if m.id = tempAiId then (acc.1 ++ [{ m with isStreaming := false }], m.content)
  else (acc.1 ++ [m], acc.2)

/-- The first pass of `onComplete`: map over the messages clearing
`isStreaming` on the placeholder while grabbing its fully streamed content
into `finalAiContent` (initialised to the empty string). -/
def markStreamingComplete (tempAiId : String)
    (msgs : List Message) : List Message × String :=
  msgs.foldl (markStep tempAiId) ([], "")

/-- Error banner text set by the `onError` callback for a stream error
message `e`. -/
def streamErrorBanner (e : String) : String :=
  "AI Connection Error: " ++ e

/-- Error banner text set when the completion-time persistence write for the
assistant message fails. -/
def persistErrorBanner : String :=
  "Error saving AI response. The conversation might be out of sync."

/-- The `onComplete` callback: mark streaming finished and grab
`finalAiContent`; if the content is non-empty, issue the backend write
`sendMessage(conversationId, finalAiContent, 'ai')` and, on success,
reconcile the placeholder with the persisted record, or on failure set the
secondary save-error banner; finally clear `isLoading`. Returns the new
state and the API calls issued. -/
def onCompleteStep (convId tempAiId : String) (aiPersist : Except String Message)
    (st : ChatState) : ChatState × List ApiCall :=
  let pass := markStreamingComplete tempAiId st.messages
  let finalAiContent := pass.2
  let st1 := { st with messages := pass.1 }
  if finalAiContent = "" then
    ({ st1 with isLoading := false }, [])
  else
    match aiPersist with
    | .ok persistedAi =>
        ({ st1 with
           messages := reconcileWith tempAiId persistedAi st1.messages
           isLoading := false },
         [ApiCall.sendMessage convId finalAiContent "ai"])
    | .error _ =>
        ({ st1 with error := persistErrorBanner, isLoading := false },
         [ApiCall.sendMessage convId finalAiContent "ai"])

/-- The `onError` callback: surface the stream error, drop exactly the
messages carrying the placeholder id, and clear `isLoading`. -/
def onErrorStep (tempAiId err : String) (st : ChatState) : ChatState :=
  { st with
    error := streamErrorBanner err
    messages := st.messages.filter (fun m => m.id != tempAiId)
    isLoading := false }

/-- The streaming phase of a turn: the chunks delivered before the outcome
are appended in order; a normal close runs `onCompleteStep`, a failure runs
`onErrorStep` (which issues no API call). -/
def streamPhase (convId tempAiId : String) (upstream : UpstreamOutcome)
    (aiPersist : Except String Message) (st : ChatState) : ChatState × List ApiCall :=
  match upstream with
  | .ok chunks =>
      onCompleteStep convId tempAiId aiPersist
        { st with messages := applyChunks tempAiId chunks st.messages }
  | .fail delivered err =>
      (onErrorStep tempAiId err
        { st with messages := applyChunks tempAiId delivered st.messages }, [])

/-- The whole of `handleSendMessage` for one chat turn. Guard as in the
source: return unchanged when the trimmed input is empty, no conversation is
selected, or no user is present. Otherwise: optimistic render, the backend
write for the user message (whose result is the `userPersist` parameter —
on rejection the catch block removes both optimistic messages and sets the
error from the response detail, defaulting to "Failed to send message.");
then the streaming phase. Returns the final state and the API calls issued,
in order. -/
def runChatTurn (st : ChatState) (hasUser : Bool)
    (convId tempUserId tempAiId : String) (now : Nat)
    (userPersist : Except String Message) (upstream : UpstreamOutcome)
    (aiPersist : Except String Message) : ChatState × List ApiCall :=
  if jsTrim st.newMessage = "" ∨ convId = "" ∨ hasUser = false then (st, [])
  else
    let userContent := st.newMessage
    let st1 := startTurnState st convId tempUserId tempAiId now
    match userPersist with
    | .error detail =>
        ({ st1 with
           error := if detail = "" then "Failed to send message." else detail
           messages := st1.messages.filter
             (fun m => m.id != tempUserId && m.id != tempAiId)
           isLoading := false },
         [ApiCall.sendMessage convId userContent "user"])
    | .ok persistedUser =>
        let st2 := { st1 with
          messages := reconcileWith tempUserId persistedUser st1.messages }
        let res := streamPhase convId tempAiId upstream aiPersist st2
        (res.1, ApiCall.sendMessage convId userContent "user" :: res.2)

/-- A user record as held by the backend. -/
structure BackendUser where
  username : String
  email : String
  password : String
  full_name : String
deriving Repr, DecidableEq

/-- Backend state: the users table (usernames unique per the data model). -/
structure Backend where
  users : List BackendUser
deriving Repr, DecidableEq

/-- Modelled from the spec: the backend user-registration endpoint
(POST `/users/`, reached through `apiService.signup`) is not among the
sources under src/ — only its frontend caller is. Per the spec, signup
creates a user with a unique username and stores the password credential
(hashing is abstracted as identity here); a duplicate username is a
validation failure with a detail string. -/
def backendSignup (b : Backend) (username email password full_name : String) :
    Except String (Backend × BackendUser) :=
  if b.users.any (fun u => u.username == username) then
    .error "Username already registered"
  else
    let u : BackendUser :=
      { username := username, email := email, password := password, full_name := full_name }
    .ok ({ users := b.users ++ [u] }, u)

/-- Modelled from the spec: the backend token endpoint (POST `/token`,
reached through `apiService.login`) is not among the sources under src/.
Per the spec, token issuance given valid credentials: login succeeds
exactly when a stored user matches the username and password, yielding an
access token; otherwise an authentication failure. The token is modelled
deterministically as a tag of the username. -/
def backendLogin (b : Backend) (username password : String) :
    Except String String :=
  if b.users.any (fun u => u.username == username && u.password == password) then
    .ok ("token:" ++ username)
  else
    .error "Incorrect username or password"

/-- Modelled from the spec: protected endpoints accept a bearer token iff it
was issued for an existing user (token validation). -/
def backendAuthorizes (b : Backend) (token : String) : Bool :=
  b.users.any (fun u => ("token:" ++ u.username) == token)

/-- An auth-related API call issued by the signup form. -/
inductive AuthCall where
  | signupCall (username email password fullName : String)
  | loginCall (username password : String)
deriving Repr, DecidableEq

/-- Outcome of `SignupPage.handleSubmit`: the error banner, the API calls
issued in order, and the access token installed via
`onSignupSuccess(loginData.access_token)` when the flow succeeds. -/
structure SignupResult where
  error : String
  calls : List AuthCall
  installedToken : Option String
deriving Repr, DecidableEq

/-- `SignupPage.handleSubmit` run against a backend state: reject a password
shorter than 6 characters client-side before any network call; otherwise
call `apiService.signup`, then immediately `apiService.login` with the same
credentials, installing the returned access token; any rejection lands in
the catch block, whose banner is the response detail or the fallback
"Signup failed. Please try again.". Returns the backend state after the
flow, the result, and the calls issued. -/
def signupHandleSubmit (b : Backend)
    (username email password fullName : String) : Backend × SignupResult :=
  if password.length < 6 then
    (b, { error := "Password must be at least 6 characters long."
          calls := []
          installedToken := none })
  else
    match backendSignup b username email password fullName with
    | .error detail =>
        (b, { error := if detail = "" then "Signup failed. Please try again." else detail
              calls := [AuthCall.signupCall username email password fullName]
              installedToken := none })
    | .ok (b1, _userData) =>
        match backendLogin b1 username password with
        | .error detail =>
            (b1, { error := if detail = "" then "Signup failed. Please try again." else detail
                   calls := [AuthCall.signupCall username email password fullName,
                             AuthCall.loginCall username password]
                   installedToken := none })
        | .ok token =>
            (b1, { error := ""
                   calls := [AuthCall.signupCall username email password fullName,
                             AuthCall.loginCall username password]
                   installedToken := some token })

/-- The record a temporary message is reconciled to: the persisted record
with the temporary id kept when the persisted id is falsy. -/
def reconciledRecord (tempId : String) (persisted : Message) : Message :=
  { persisted with id := if persisted.id = "" then tempId else persisted.id }

/-- The assistant message as displayed after `onComplete`'s first pass:
the placeholder with the streamed content and `isStreaming` cleared. -/
def completedAiMessage (convId tempAiId : String) (now : Nat)
    (content : String) : Message :=
  { id := tempAiId
    content := content
    sender := "ai"
    timestamp := now
    conversation_id := convId
    isStreaming := false }

/-- The chat input field carries `disabled=\x7bisLoading\x7d`. -/
def chatInputDisabled (st : ChatState) : Bool := st.isLoading

/-- The send button carries `disabled=\x7bisLoading || !newMessage.trim()\x7d`. -/
def sendButtonDisabled (st : ChatState) : Bool :=
  st.isLoading || jsTrim st.newMessage == ""

/-- The form can submit another message only when its submit button is
enabled (and then only through the input, which is likewise disabled while
loading). -/
def canSubmitSend (st : ChatState) : Bool :=
  !chatInputDisabled st && !sendButtonDisabled st

/-- The chat input's `onChange` handler: typing stores the draft in
`newMessage` (available whenever the input is not disabled). -/
def typeDraft (draft : String) (st : ChatState) : ChatState :=
  { st with newMessage := draft }

/-- The timestamp sort applied to fetched conversation messages:
`convDetails.messages.sort((a,b) => new Date(a.timestamp) - new Date(b.timestamp))`. -/
def sortByTimestamp (msgs : List Message) : List Message :=
  msgs.mergeSort fun a b => a.timestamp ≤ b.timestamp

/-- The fetch-messages effect of the ChatPage: it re-runs on every change of
`currentConversationId` — in particular when the user clicks a sidebar
conversation entry (a plain list item with an `onClick`, never disabled)
and again when they click back. With a conversation selected it sets
`isLoading`, clears the error banner, then replaces the message list with
the fetched conversation details sorted by timestamp (or, on a fetch
failure, sets the load-error banner); its `finally` block clears
`isLoading` in either case. With no conversation selected it only empties
the message list. Because this effect's `finally` also writes `isLoading`,
a switch-and-return while a send is in flight re-enables the chat form. -/
def fetchMessagesEffect (st : ChatState) (hasConv : Bool)
    (fetched : Except String (List Message)) : ChatState :=
  if hasConv then
    match fetched with
    | .ok msgs =>
        { st with messages := sortByTimestamp msgs, error := "", isLoading := false }
    | .error _ =>
        { st with
          error := "Could not load messages for this conversation."
          isLoading := false }
  else { st with messages := [] }

/-- The content displayed for the message with the given id (the first
matching entry of the message list), empty when no such message is shown. -/
def contentOf (aid : String) (msgs : List Message) : String :=
  match msgs.find? (fun m => m.id == aid) with
  | some m => m.content
  | none => ""

/-- Whether the call list contains a message-persistence write with the
given sender role. -/
def issuesWriteFor (sender : String) (calls : List ApiCall) : Bool :=
  calls.any fun c => match c with | .sendMessage _ _ s => s == sender

/-- Sample fixture: a chat state with no prior messages and the draft
"hello" typed into the input. -/
def sampleState : ChatState :=
  { messages := [], newMessage := "hello", isLoading := false, error := "" }

/-- Sample fixture: the backend record returned for the persisted user
message. -/
def sampleUserRecord : Message :=
  { id := "u1", content := "hello", sender := "user", timestamp := 1
    conversation_id := "c1", isStreaming := false }

/-- Sample fixture: the backend record returned for the persisted assistant
message, echoing the streamed content "Hi!". -/
def sampleAiRecord : Message :=
  { id := "a1", content := "Hi!", sender := "ai", timestamp := 2
    conversation_id := "c1", isStreaming := false }

/-! Helper lemmas about the embedding. -/

theorem join_cons (c : String) (cs : List String) :
    String.join (c :: cs) = c ++ String.join cs := by
  apply String.ext
  simp [String.join_eq, String.data_append]

theorem empty_append_str (s : String) : "" ++ s = s := by
  apply String.ext
  simp [String.data_append]

theorem map_keep_of_ne {aid : String} {g : Message → Message} {pre : List Message}
    (h : ∀ x ∈ pre, x.id ≠ aid) :
    pre.map (fun m => if m.id = aid then g m else m) = pre := by
  induction pre with
  | nil => rfl
  | cons x xs ih =>
    have hx : x.id ≠ aid := h x (List.mem_cons_self x xs)
    simp only [List.map_cons, if_neg hx]
    rw [ih (fun y hy => h y (List.mem_cons_of_mem x hy))]

theorem appendChunk_split {aid c : String} {pre : List Message} {m : Message}
    (hpre : ∀ x ∈ pre, x.id ≠ aid) (hm : m.id = aid) :
    appendChunkToPlaceholder aid c (pre ++ [m]) =
      pre ++ [{ m with content := m.content ++ c }] := by
  unfold appendChunkToPlaceholder
  rw [List.map_append, map_keep_of_ne hpre]
  simp [hm]

theorem applyChunks_split (aid : String) (chunks : List String)
    (pre : List Message) (hpre : ∀ x ∈ pre, x.id ≠ aid) :
    ∀ m : Message, m.id = aid →
      applyChunks aid chunks (pre ++ [m]) =
        pre ++ [{ m with content := m.content ++ String.join chunks }] := by
  induction chunks with
  | nil =>
      intro m hm
      rw [show String.join [] = "" from rfl, String.append_empty]
      rfl
  | cons c cs ih =>
      intro m hm
      rw [show applyChunks aid (c :: cs) (pre ++ [m])
            = applyChunks aid cs (appendChunkToPlaceholder aid c (pre ++ [m])) from rfl]
      rw [appendChunk_split hpre hm]
      rw [ih { m with content := m.content ++ c } hm]
      rw [join_cons, String.append_assoc]

theorem markStep_foldl_keep (aid : String) (pre : List Message)
    (hpre : ∀ x ∈ pre, x.id ≠ aid) :
    ∀ acc : List Message × String,
      pre.foldl (markStep aid) acc = (acc.1 ++ pre, acc.2) := by
  induction pre with
  | nil => intro acc; simp
  | cons x xs ih =>
      intro acc
      have hx : x.id ≠ aid := hpre x (List.mem_cons_self x xs)
      simp only [List.foldl_cons, markStep, if_neg hx]
      rw [ih (fun y hy => hpre y (List.mem_cons_of_mem x hy))]
      simp

theorem markStreamingComplete_split {aid : String} {pre : List Message} {m : Message}
    (hpre : ∀ x ∈ pre, x.id ≠ aid) (hm : m.id = aid) :
    markStreamingComplete aid (pre ++ [m]) =
      (pre ++ [{ m with isStreaming := false }], m.content) := by
  unfold markStreamingComplete
  rw [List.foldl_append, markStep_foldl_keep aid pre hpre]
  simp [markStep, hm]

theorem reconcileWith_split {tid : String} {persisted : Message}
    {pre : List Message} {m : Message}
    (hpre : ∀ x ∈ pre, x.id ≠ tid) (hm : m.id = tid) :
    reconcileWith tid persisted (pre ++ [m]) =
      pre ++ [{ persisted with id := if persisted.id = "" then tid else persisted.id }] := by
  unfold reconcileWith
  rw [List.map_append, map_keep_of_ne hpre]
  simp [hm]

theorem filter_drop_last {aid : String} {pre : List Message} {m : Message}
    (hpre : ∀ x ∈ pre, x.id ≠ aid) (hm : m.id = aid) :
    (pre ++ [m]).filter (fun x => x.id != aid) = pre := by
  rw [List.filter_append]
  have h1 : pre.filter (fun x => x.id != aid) = pre := by
    apply List.filter_eq_self.mpr
    intro a ha
    simpa using hpre a ha
  rw [h1]
  simp [hm]

theorem reconcileWith_append (tid : String) (p : Message) (l1 l2 : List Message) :
    reconcileWith tid p (l1 ++ l2) =
      reconcileWith tid p l1 ++ reconcileWith tid p l2 := by
  unfold reconcileWith
  exact List.map_append _ l1 l2

theorem reconcileWith_single_ne {tid : String} {p : Message} {m : Message}
    (hm : m.id ≠ tid) : reconcileWith tid p [m] = [m] := by
  simp [reconcileWith, hm]

theorem startReconciled (msgs : List Message) (c convId tu ta : String) (now : Nat)
    (pu : Message)
    (hfresh : ∀ x ∈ msgs, x.id ≠ tu) (hta : ta ≠ tu) :
    reconcileWith tu pu
        ((msgs ++ [userMessageForDisplay c convId tu now])
          ++ [aiMessagePlaceholder convId ta now]) =
      (msgs ++ [reconciledRecord tu pu]) ++ [aiMessagePlaceholder convId ta now] := by
  rw [reconcileWith_append, reconcileWith_split hfresh rfl,
    reconcileWith_single_ne hta]
  rfl

theorem guard_passes {st : ChatState} {convId : String}
    (hne : jsTrim st.newMessage ≠ "") (hconv : convId ≠ "") :
    ¬(jsTrim st.newMessage = "" ∨ convId = "" ∨ (true : Bool) = false) := by
  simp [hne, hconv]

theorem fresh_with_reconciled {st : ChatState} {tu ta : String} {pu : Message}
    (hfreshA : ∀ x ∈ st.messages, x.id ≠ ta)
    (htuta : tu ≠ ta) (hpu : pu.id ≠ ta) :
    ∀ x ∈ st.messages ++ [reconciledRecord tu pu], x.id ≠ ta := by
  intro x hx
  rcases List.mem_append.mp hx with h | h
  · exact hfreshA x h
  · have hx1 : x = reconciledRecord tu pu := List.mem_singleton.mp h
    subst hx1
    show (if pu.id = "" then tu else pu.id) ≠ ta
    by_cases hcase : pu.id = ""
    · simpa [hcase] using htuta
    · simpa [hcase] using hpu

theorem runChatTurn_fail_eq (st : ChatState) (convId tu ta : String) (now : Nat)
    (pu : Message) (delivered : List String) (err : String)
    (aiPersist : Except String Message)
    (hne : jsTrim st.newMessage ≠ "") (hconv : convId ≠ "")
    (hfreshU : ∀ x ∈ st.messages, x.id ≠ tu)
    (hfreshA : ∀ x ∈ st.messages, x.id ≠ ta)
    (htuta : tu ≠ ta) (hpu : pu.id ≠ ta) :
    runChatTurn st true convId tu ta now (.ok pu) (.fail delivered err) aiPersist =
      ({ messages := st.messages ++ [reconciledRecord tu pu]
         newMessage := ""
         isLoading := false
         error := streamErrorBanner err },
       [ApiCall.sendMessage convId st.newMessage "user"]) := by
  have hguard := guard_passes hne hconv
  have hpre := fresh_with_reconciled hfreshA htuta hpu
  unfold runChatTurn
  rw [if_neg hguard]
  dsimp only [startTurnState, streamPhase, onErrorStep]
  rw [startReconciled st.messages st.newMessage convId tu ta now pu hfreshU
    (fun h => htuta h.symm)]
  rw [applyChunks_split ta delivered _ hpre _ rfl]
  rw [filter_drop_last hpre rfl]

theorem placeholder_content_append (convId ta : String) (now : Nat) (s : String) :
    (aiMessagePlaceholder convId ta now).content ++ s = s := by
  rw [show (aiMessagePlaceholder convId ta now).content = "" from rfl, empty_append_str]

theorem runChatTurn_ok_empty_eq (st : ChatState) (convId tu ta : String) (now : Nat)
    (pu : Message) (chunks : List String) (aiPersist : Except String Message)
    (hne : jsTrim st.newMessage ≠ "") (hconv : convId ≠ "")
    (hfreshU : ∀ x ∈ st.messages, x.id ≠ tu)
    (hfreshA : ∀ x ∈ st.messages, x.id ≠ ta)
    (htuta : tu ≠ ta) (hpu : pu.id ≠ ta)
    (hJ : String.join chunks = "") :
    runChatTurn st true convId tu ta now (.ok pu) (.ok chunks) aiPersist =
      ({ messages := (st.messages ++ [reconciledRecord tu pu])
           ++ [completedAiMessage convId ta now (String.join chunks)]
         newMessage := ""
         isLoading := false
         error := "" },
       [ApiCall.sendMessage convId st.newMessage "user"]) := by
  have hguard := guard_passes hne hconv
  have hpre := fresh_with_reconciled hfreshA htuta hpu
  unfold runChatTurn
  rw [if_neg hguard]
  dsimp only [startTurnState, streamPhase]
  rw [startReconciled st.messages st.newMessage convId tu ta now pu hfreshU
    (fun h => htuta h.symm)]
  rw [applyChunks_split ta chunks _ hpre _ rfl]
  unfold onCompleteStep
  rw [markStreamingComplete_split hpre rfl]
  dsimp only []
  rw [placeholder_content_append convId ta now (String.join chunks)]
  rw [if_pos hJ]
  rfl

theorem runChatTurn_ok_persisted_eq (st : ChatState) (convId tu ta : String)
    (now : Nat) (pu pa : Message) (chunks : List String)
    (hne : jsTrim st.newMessage ≠ "") (hconv : convId ≠ "")
    (hfreshU : ∀ x ∈ st.messages, x.id ≠ tu)
    (hfreshA : ∀ x ∈ st.messages, x.id ≠ ta)
    (htuta : tu ≠ ta) (hpu : pu.id ≠ ta)
    (hJ : String.join chunks ≠ "") :
    runChatTurn st true convId tu ta now (.ok pu) (.ok chunks) (.ok pa) =
      ({ messages := (st.messages ++ [reconciledRecord tu pu])
           ++ [reconciledRecord ta pa]
         newMessage := ""
         isLoading := false
         error := "" },
       [ApiCall.sendMessage convId st.newMessage "user",
        ApiCall.sendMessage convId (String.join chunks) "ai"]) := by
  have hguard := guard_passes hne hconv
  have hpre := fresh_with_reconciled hfreshA htuta hpu
  unfold runChatTurn
  rw [if_neg hguard]
  dsimp only [startTurnState, streamPhase]
  rw [startReconciled st.messages st.newMessage convId tu ta now pu hfreshU
    (fun h => htuta h.symm)]
  rw [applyChunks_split ta chunks _ hpre _ rfl]
  unfold onCompleteStep
  rw [markStreamingComplete_split hpre rfl]
  dsimp only []
  rw [placeholder_content_append convId ta now (String.join chunks)]
  rw [if_neg hJ]
  rw [reconcileWith_split hpre rfl]
  rfl

theorem runChatTurn_ok_persistFail_eq (st : ChatState) (convId tu ta : String)
    (now : Nat) (pu : Message) (chunks : List String) (d : String)
    (hne : jsTrim st.newMessage ≠ "") (hconv : convId ≠ "")
    (hfreshU : ∀ x ∈ st.messages, x.id ≠ tu)
    (hfreshA : ∀ x ∈ st.messages, x.id ≠ ta)
    (htuta : tu ≠ ta) (hpu : pu.id ≠ ta)
    (hJ : String.join chunks ≠ "") :
    runChatTurn st true convId tu ta now (.ok pu) (.ok chunks) (.error d) =
      ({ messages := (st.messages ++ [reconciledRecord tu pu])
           ++ [completedAiMessage convId ta now (String.join chunks)]
         newMessage := ""
         isLoading := false
         error := persistErrorBanner },
       [ApiCall.sendMessage convId st.newMessage "user",
        ApiCall.sendMessage convId (String.join chunks) "ai"]) := by
  have hguard := guard_passes hne hconv
  have hpre := fresh_with_reconciled hfreshA htuta hpu
  unfold runChatTurn
  rw [if_neg hguard]
  dsimp only [startTurnState, streamPhase]
  rw [startReconciled st.messages st.newMessage convId tu ta now pu hfreshU
    (fun h => htuta h.symm)]
  rw [applyChunks_split ta chunks _ hpre _ rfl]
  unfold onCompleteStep
  rw [markStreamingComplete_split hpre rfl]
  dsimp only []
  rw [placeholder_content_append convId ta now (String.join chunks)]
  rw [if_neg hJ]
  rfl

theorem contentOf_split {aid : String} {pre : List Message} {m : Message}
    (hpre : ∀ x ∈ pre, x.id ≠ aid) (hm : m.id = aid) :
    contentOf aid (pre ++ [m]) = m.content := by
  unfold contentOf
  have h1 : pre.find? (fun x => x.id == aid) = none := by
    apply List.find?_eq_none.mpr
    intro x hx
    simpa using hpre x hx
  rw [List.find?_append, h1]
  simp [hm]

theorem persist_banner_ne_stream_banner (e : String) :
    persistErrorBanner ≠ streamErrorBanner e := by
  intro h
  have h1 : (streamErrorBanner e).data.head? = some 'A' := by
    rw [streamErrorBanner]
    rw [show ("AI Connection Error: " ++ e).data
          = "AI Connection Error: ".data ++ e.data from String.data_append _ _]
    rfl
  have h2 : persistErrorBanner.data.head? = some 'E' := rfl
  rw [h, h1] at h2
  exact absurd h2 (by decide)

theorem complete_not_in_fail_events (delivered : List String) (err : String) :
    StreamEvent.complete ∉ getAiReplyStreamEvents (.fail delivered err) := by
  simp [getAiReplyStreamEvents]

/-! Claim theorems. -/

/-- C9: whenever a caller of `getAiReplyStream` omits the model argument or
passes `undefined` — as the chat page does — the request body sent to the
relay carries the concrete model name "gpt-4o-mini" from the function's
default parameter, so a relay-side default model is never exercised by this
frontend. -/
theorem c9_default_model_always_sent (userId sessionId message : String) :
    (getAiReplyStreamBody userId sessionId message chatPageModelArg).model
        = "gpt-4o-mini" ∧
    (getAiReplyStreamBody userId sessionId message none).model = "gpt-4o-mini" ∧
    chatPageModelArg = none :=
  ⟨rfl, rfl, rfl⟩

/-- C10: a signup submission with a password shorter than 6 characters is
rejected client-side with the validation error banner and the handler
returns before any network request: neither the signup nor the login call
is issued, no token is installed, and the backend is untouched. -/
theorem c10_short_password_rejected_client_side (b : Backend)
    (username email password fullName : String)
    (hpw : password.length < 6) :
    signupHandleSubmit b username email password fullName
      = (b, { error := "Password must be at least 6 characters long."
              calls := []
              installedToken := none }) := by
  unfold signupHandleSubmit
  rw [if_pos hpw]

/-- C10 witness: the concrete password "abc" is rejected with no API call. -/
theorem c10_short_password_rejected_client_side_witness :
    signupHandleSubmit { users := [] } "alice" "alice@example.com" "abc" ""
      = ({ users := [] },
         { error := "Password must be at least 6 characters long."
           calls := []
           installedToken := none }) :=
  c10_short_password_rejected_client_side { users := [] }
    "alice" "alice@example.com" "abc" "" (by decide)

/-- C7: for well-formed signup inputs (password long enough, username not
yet taken), the signup flow issues the signup call and then the login call
with the same credentials, installs the returned access token, that token
authorizes the protected endpoints against the resulting backend state, and
a login with the same credentials against the post-signup backend state
succeeds with that token. -/
theorem c7_signup_then_login_authorizes (b : Backend)
    (username email password fullName : String)
    (hpw : 6 ≤ password.length)
    (hfree : ∀ u ∈ b.users, u.username ≠ username) :
    (signupHandleSubmit b username email password fullName).2.calls
        = [AuthCall.signupCall username email password fullName,
           AuthCall.loginCall username password] ∧
    (signupHandleSubmit b username email password fullName).2.installedToken
        = some ("token:" ++ username) ∧
    (signupHandleSubmit b username email password fullName).2.error = "" ∧
    backendLogin (signupHandleSubmit b username email password fullName).1
        username password = .ok ("token:" ++ username) ∧
    backendAuthorizes (signupHandleSubmit b username email password fullName).1
        ("token:" ++ username) = true := by
  have hany : b.users.any (fun u => u.username == username) = false := by
    rw [List.any_eq_false]
    intro u hu
    simp [hfree u hu]
  have hsign : backendSignup b username email password fullName
      = .ok ({ users := b.users ++ [⟨username, email, password, fullName⟩] },
             ⟨username, email, password, fullName⟩) := by
    unfold backendSignup
    rw [if_neg (by simp [hany])]
  have hlog : backendLogin
      { users := b.users ++ [⟨username, email, password, fullName⟩] }
      username password = .ok ("token:" ++ username) := by
    unfold backendLogin
    rw [if_pos (by simp [List.any_append])]
  have hauth : backendAuthorizes
      { users := b.users ++ [⟨username, email, password, fullName⟩] }
      ("token:" ++ username) = true := by
    unfold backendAuthorizes
    simp [List.any_append]
  have hrun : signupHandleSubmit b username email password fullName
      = ({ users := b.users ++ [⟨username, email, password, fullName⟩] },
         { error := ""
           calls := [AuthCall.signupCall username email password fullName,
                     AuthCall.loginCall username password]
           installedToken := some ("token:" ++ username) }) := by
    unfold signupHandleSubmit
    rw [if_neg (by omega), hsign]
    dsimp only []
    rw [hlog]
  rw [hrun]
  exact ⟨rfl, rfl, rfl, hlog, hauth⟩

/-- C7 witness: the concrete user "alice" with password "secret99" signs up
against an empty backend, the token is installed and authorizes, and a
fresh login succeeds. -/
theorem c7_signup_then_login_authorizes_witness :
    (signupHandleSubmit { users := [] } "alice" "alice@example.com" "secret99" "Alice").2.calls
        = [AuthCall.signupCall "alice" "alice@example.com" "secret99" "Alice",
           AuthCall.loginCall "alice" "secret99"] ∧
    (signupHandleSubmit { users := [] } "alice" "alice@example.com" "secret99" "Alice").2.installedToken
        = some ("token:" ++ "alice") ∧
    (signupHandleSubmit { users := [] } "alice" "alice@example.com" "secret99" "Alice").2.error = "" ∧
    backendLogin (signupHandleSubmit { users := [] } "alice" "alice@example.com" "secret99" "Alice").1
        "alice" "secret99" = .ok ("token:" ++ "alice") ∧
    backendAuthorizes (signupHandleSubmit { users := [] } "alice" "alice@example.com" "secret99" "Alice").1
        ("token:" ++ "alice") = true :=
  c7_signup_then_login_authorizes { users := [] }
    "alice" "alice@example.com" "secret99" "Alice" (by decide) (by decide)

/-- C1: for a stream that completes successfully, the fragments are applied
in arrival order with no reordering — after the first k fragments the
pending assistant message shows exactly their concatenation — the content
submitted for persistence on completion is the full concatenation, and
(the backend echoing the submitted content) the assistant message shown
after reconciliation carries exactly that concatenation. -/
theorem c1_streamed_text_roundtrip (st : ChatState) (convId tu ta : String)
    (now : Nat) (pu pa : Message) (chunks : List String)
    (hne : jsTrim st.newMessage ≠ "") (hconv : convId ≠ "")
    (hfreshU : ∀ x ∈ st.messages, x.id ≠ tu)
    (hfreshA : ∀ x ∈ st.messages, x.id ≠ ta)
    (htuta : tu ≠ ta) (hpu : pu.id ≠ ta)
    (hJ : String.join chunks ≠ "") (hecho : pa.content = String.join chunks) :
    (∀ k : Nat,
      contentOf ta (applyChunks ta (chunks.take k)
        ((st.messages ++ [reconciledRecord tu pu])
          ++ [aiMessagePlaceholder convId ta now]))
        = String.join (chunks.take k)) ∧
    (runChatTurn st true convId tu ta now (.ok pu) (.ok chunks) (.ok pa)).2
        = [ApiCall.sendMessage convId st.newMessage "user",
           ApiCall.sendMessage convId (String.join chunks) "ai"] ∧
    (runChatTurn st true convId tu ta now (.ok pu) (.ok chunks) (.ok pa)).1.messages
        = (st.messages ++ [reconciledRecord tu pu]) ++ [reconciledRecord ta pa] ∧
    (reconciledRecord ta pa).content = String.join chunks := by
  have hpre := fresh_with_reconciled hfreshA htuta hpu
  refine ⟨?_, ?_, ?_, hecho⟩
  · intro k
    rw [applyChunks_split ta (chunks.take k) _ hpre _ rfl]
    rw [contentOf_split hpre rfl]
    exact placeholder_content_append convId ta now (String.join (chunks.take k))
  · rw [runChatTurn_ok_persisted_eq st convId tu ta now pu pa chunks
      hne hconv hfreshU hfreshA htuta hpu hJ]
  · rw [runChatTurn_ok_persisted_eq st convId tu ta now pu pa chunks
      hne hconv hfreshU hfreshA htuta hpu hJ]

/-- C1 witness: the turn with the draft "hello" and stream fragments
"Hi", "!" submits exactly "Hi!" for persistence and displays it. -/
theorem c1_streamed_text_roundtrip_witness :
    (runChatTurn sampleState true "c1" "temp-user-1" "temp-ai-1" 0
        (.ok sampleUserRecord) (.ok ["Hi", "!"]) (.ok sampleAiRecord)).2
      = [ApiCall.sendMessage "c1" "hello" "user",
         ApiCall.sendMessage "c1" (String.join ["Hi", "!"]) "ai"] := by
  have h := c1_streamed_text_roundtrip sampleState "c1" "temp-user-1" "temp-ai-1" 0
    sampleUserRecord sampleAiRecord ["Hi", "!"]
    (by decide) (by decide) (by decide) (by decide) (by decide) (by decide)
    (by decide) (by decide)
  exact h.2.1

/-- C2: if the upstream stream fails after delivering any list of fragments,
the turn issues no assistant-message persistence write (only the
user-message write was issued), the stream error is surfaced, and the
callback protocol delivers `onError` and never `onComplete`. -/
theorem c2_stream_failure_not_persisted (st : ChatState) (convId tu ta : String)
    (now : Nat) (pu : Message) (delivered : List String) (err : String)
    (aiPersist : Except String Message)
    (hne : jsTrim st.newMessage ≠ "") (hconv : convId ≠ "")
    (hfreshU : ∀ x ∈ st.messages, x.id ≠ tu)
    (hfreshA : ∀ x ∈ st.messages, x.id ≠ ta)
    (htuta : tu ≠ ta) (hpu : pu.id ≠ ta) :
    (runChatTurn st true convId tu ta now (.ok pu) (.fail delivered err) aiPersist).2
        = [ApiCall.sendMessage convId st.newMessage "user"] ∧
    issuesWriteFor "ai"
        (runChatTurn st true convId tu ta now (.ok pu) (.fail delivered err) aiPersist).2
        = false ∧
    (runChatTurn st true convId tu ta now (.ok pu) (.fail delivered err) aiPersist).1.error
        = streamErrorBanner err ∧
    StreamEvent.error err ∈ getAiReplyStreamEvents (.fail delivered err) ∧
    StreamEvent.complete ∉ getAiReplyStreamEvents (.fail delivered err) := by
  have h := runChatTurn_fail_eq st convId tu ta now pu delivered err aiPersist
    hne hconv hfreshU hfreshA htuta hpu
  refine ⟨?_, ?_, ?_, ?_, complete_not_in_fail_events delivered err⟩
  · rw [h]
  · rw [h]; rfl
  · rw [h]
  · simp [getAiReplyStreamEvents]

/-- C2 witness: a stream failing with "boom" after one fragment leaves only
the user-message write issued. -/
theorem c2_stream_failure_not_persisted_witness :
    (runChatTurn sampleState true "c1" "temp-user-1" "temp-ai-1" 0
        (.ok sampleUserRecord) (.fail ["Hi"] "boom") (.ok sampleAiRecord)).2
      = [ApiCall.sendMessage "c1" "hello" "user"] := by
  have h := c2_stream_failure_not_persisted sampleState "c1" "temp-user-1" "temp-ai-1" 0
    sampleUserRecord ["Hi"] "boom" (.ok sampleAiRecord)
    (by decide) (by decide) (by decide) (by decide) (by decide) (by decide)
  exact h.1

/-- C5: on a stream error, exactly the assistant placeholder is removed —
just before the error the displayed list is the prior messages, the
reconciled user message, and the partially filled placeholder; afterwards
it is the same list without the placeholder — and the stream error banner
is surfaced; every other message, in particular the optimistically shown
user message, is unchanged. -/
theorem c5_error_removes_exactly_placeholder (st : ChatState)
    (convId tu ta : String) (now : Nat) (pu : Message)
    (delivered : List String) (err : String) (aiPersist : Except String Message)
    (hne : jsTrim st.newMessage ≠ "") (hconv : convId ≠ "")
    (hfreshU : ∀ x ∈ st.messages, x.id ≠ tu)
    (hfreshA : ∀ x ∈ st.messages, x.id ≠ ta)
    (htuta : tu ≠ ta) (hpu : pu.id ≠ ta) :
    applyChunks ta delivered ((st.messages ++ [reconciledRecord tu pu])
        ++ [aiMessagePlaceholder convId ta now])
      = (st.messages ++ [reconciledRecord tu pu])
        ++ [{ aiMessagePlaceholder convId ta now with content := String.join delivered }] ∧
    (runChatTurn st true convId tu ta now (.ok pu) (.fail delivered err) aiPersist).1.messages
      = st.messages ++ [reconciledRecord tu pu] ∧
    (runChatTurn st true convId tu ta now (.ok pu) (.fail delivered err) aiPersist).1.error
      = streamErrorBanner err := by
  have hpre := fresh_with_reconciled hfreshA htuta hpu
  have h := runChatTurn_fail_eq st convId tu ta now pu delivered err aiPersist
    hne hconv hfreshU hfreshA htuta hpu
  refine ⟨?_, ?_, ?_⟩
  · rw [applyChunks_split ta delivered _ hpre _ rfl,
      placeholder_content_append convId ta now (String.join delivered)]
  · rw [h]
  · rw [h]

/-- C5 witness: after the stream fails, the list holds exactly the prior
(empty) history plus the reconciled user message. -/
theorem c5_error_removes_exactly_placeholder_witness :
    (runChatTurn sampleState true "c1" "temp-user-1" "temp-ai-1" 0
        (.ok sampleUserRecord) (.fail ["Hi"] "boom") (.ok sampleAiRecord)).1.messages
      = sampleState.messages ++ [reconciledRecord "temp-user-1" sampleUserRecord] := by
  have h := c5_error_removes_exactly_placeholder sampleState "c1" "temp-user-1" "temp-ai-1" 0
    sampleUserRecord ["Hi"] "boom" (.ok sampleAiRecord)
    (by decide) (by decide) (by decide) (by decide) (by decide) (by decide)
  exact h.2.1

/-- C6: when the stream completes but the follow-up persistence write fails,
the save-error banner is surfaced — a message distinct from every stream
error banner — the fully streamed assistant reply stays in the list,
unaltered, with the streamed content, and the write was indeed attempted. -/
theorem c6_persist_failure_secondary_error (st : ChatState)
    (convId tu ta : String) (now : Nat) (pu : Message)
    (chunks : List String) (d : String)
    (hne : jsTrim st.newMessage ≠ "") (hconv : convId ≠ "")
    (hfreshU : ∀ x ∈ st.messages, x.id ≠ tu)
    (hfreshA : ∀ x ∈ st.messages, x.id ≠ ta)
    (htuta : tu ≠ ta) (hpu : pu.id ≠ ta)
    (hJ : String.join chunks ≠ "") :
    (runChatTurn st true convId tu ta now (.ok pu) (.ok chunks) (.error d)).1.messages
        = (st.messages ++ [reconciledRecord tu pu])
          ++ [completedAiMessage convId ta now (String.join chunks)] ∧
    (runChatTurn st true convId tu ta now (.ok pu) (.ok chunks) (.error d)).1.error
        = persistErrorBanner ∧
    (∀ e : String, persistErrorBanner ≠ streamErrorBanner e) ∧
    (runChatTurn st true convId tu ta now (.ok pu) (.ok chunks) (.error d)).2
        = [ApiCall.sendMessage convId st.newMessage "user",
           ApiCall.sendMessage convId (String.join chunks) "ai"] := by
  have h := runChatTurn_ok_persistFail_eq st convId tu ta now pu chunks d
    hne hconv hfreshU hfreshA htuta hpu hJ
  refine ⟨?_, ?_, persist_banner_ne_stream_banner, ?_⟩
  · rw [h]
  · rw [h]
  · rw [h]

/-- C6 witness: a failing save after the stream leaves the reply "Hi!" shown
and the save-error banner set. -/
theorem c6_persist_failure_secondary_error_witness :
    (runChatTurn sampleState true "c1" "temp-user-1" "temp-ai-1" 0
        (.ok sampleUserRecord) (.ok ["Hi", "!"]) (.error "500")).1.error
      = persistErrorBanner := by
  have h := c6_persist_failure_secondary_error sampleState "c1" "temp-user-1" "temp-ai-1" 0
    sampleUserRecord ["Hi", "!"] "500"
    (by decide) (by decide) (by decide) (by decide) (by decide) (by decide) (by decide)
  exact h.2.1

/-- C8: when the stream completes with empty accumulated content (zero
fragments or only empty fragments), no assistant-message persistence write
is issued — the turn's calls are exactly the user-message write — and the
completion handler still clears the loading flag. -/
theorem c8_empty_reply_never_persisted (st : ChatState)
    (convId tu ta : String) (now : Nat) (pu : Message)
    (chunks : List String) (aiPersist : Except String Message)
    (hne : jsTrim st.newMessage ≠ "") (hconv : convId ≠ "")
    (hfreshU : ∀ x ∈ st.messages, x.id ≠ tu)
    (hfreshA : ∀ x ∈ st.messages, x.id ≠ ta)
    (htuta : tu ≠ ta) (hpu : pu.id ≠ ta)
    (hJ : String.join chunks = "") :
    (runChatTurn st true convId tu ta now (.ok pu) (.ok chunks) aiPersist).2
        = [ApiCall.sendMessage convId st.newMessage "user"] ∧
    issuesWriteFor "ai"
        (runChatTurn st true convId tu ta now (.ok pu) (.ok chunks) aiPersist).2
        = false ∧
    (runChatTurn st true convId tu ta now (.ok pu) (.ok chunks) aiPersist).1.isLoading
        = false := by
  have h := runChatTurn_ok_empty_eq st convId tu ta now pu chunks aiPersist
    hne hconv hfreshU hfreshA htuta hpu hJ
  refine ⟨?_, ?_, ?_⟩
  · rw [h]
  · rw [h]; rfl
  · rw [h]

/-- C8 witness: a stream of two empty fragments triggers no
assistant-message write and leaves loading cleared. -/
theorem c8_empty_reply_never_persisted_witness :
    (runChatTurn sampleState true "c1" "temp-user-1" "temp-ai-1" 0
        (.ok sampleUserRecord) (.ok ["", ""]) (.ok sampleAiRecord)).2
      = [ApiCall.sendMessage "c1" "hello" "user"] := by
  have h := c8_empty_reply_never_persisted sampleState "c1" "temp-user-1" "temp-ai-1" 0
    sampleUserRecord ["", ""] (.ok sampleAiRecord)
    (by decide) (by decide) (by decide) (by decide) (by decide) (by decide) (by decide)
  exact h.1

/-- C3 counterexample: a chat turn whose stream completes successfully after
zero fragments issues no assistant-message persistence write at all — the
turn's call list is exactly the user-message write — refuting the claim
that every chat turn issues the backend write upon stream completion. -/
theorem c3_counterexample_empty_stream :
    (runChatTurn sampleState true "c1" "temp-user-1" "temp-ai-1" 0
        (.ok sampleUserRecord) (.ok []) (.ok sampleAiRecord)).2
      = [ApiCall.sendMessage "c1" "hello" "user"] ∧
    issuesWriteFor "ai" (runChatTurn sampleState true "c1" "temp-user-1" "temp-ai-1" 0
        (.ok sampleUserRecord) (.ok []) (.ok sampleAiRecord)).2 = false ∧
    getAiReplyStreamEvents (.ok []) = [StreamEvent.complete] ∧
    (runChatTurn sampleState true "c1" "temp-user-1" "temp-ai-1" 0
        (.ok sampleUserRecord) (.ok []) (.ok sampleAiRecord)).1.isLoading = false := by
  decide

/-- C3 amended: for every chat turn whose stream completes successfully with
non-empty accumulated content, the frontend renders the user's message and
the assistant placeholder immediately at turn start, appends each fragment
to the placeholder, and upon completion issues the user write followed by
the assistant-message write carrying the full concatenation, reconciling
both temporary messages with the persisted records returned by the
backend. -/
theorem c3_amended_turn_orchestration (st : ChatState) (convId tu ta : String)
    (now : Nat) (pu pa : Message) (chunks : List String)
    (hne : jsTrim st.newMessage ≠ "") (hconv : convId ≠ "")
    (hfreshU : ∀ x ∈ st.messages, x.id ≠ tu)
    (hfreshA : ∀ x ∈ st.messages, x.id ≠ ta)
    (htuta : tu ≠ ta) (hpu : pu.id ≠ ta)
    (hJ : String.join chunks ≠ "") :
    (startTurnState st convId tu ta now).messages
        = (st.messages ++ [userMessageForDisplay st.newMessage convId tu now])
          ++ [aiMessagePlaceholder convId ta now] ∧
    (startTurnState st convId tu ta now).isLoading = true ∧
    runChatTurn st true convId tu ta now (.ok pu) (.ok chunks) (.ok pa)
        = ({ messages := (st.messages ++ [reconciledRecord tu pu])
               ++ [reconciledRecord ta pa]
             newMessage := ""
             isLoading := false
             error := "" },
           [ApiCall.sendMessage convId st.newMessage "user",
            ApiCall.sendMessage convId (String.join chunks) "ai"]) :=
  ⟨rfl, rfl, runChatTurn_ok_persisted_eq st convId tu ta now pu pa chunks
    hne hconv hfreshU hfreshA htuta hpu hJ⟩

/-- C3 amended witness: the concrete turn with fragments "Hi", "!" ends
with both writes issued and both messages reconciled. -/
theorem c3_amended_turn_orchestration_witness :
    runChatTurn sampleState true "c1" "temp-user-1" "temp-ai-1" 0
        (.ok sampleUserRecord) (.ok ["Hi", "!"]) (.ok sampleAiRecord)
      = ({ messages := (sampleState.messages
             ++ [reconciledRecord "temp-user-1" sampleUserRecord])
             ++ [reconciledRecord "temp-ai-1" sampleAiRecord]
           newMessage := ""
           isLoading := false
           error := "" },
         [ApiCall.sendMessage "c1" "hello" "user",
          ApiCall.sendMessage "c1" (String.join ["Hi", "!"]) "ai"]) := by
  have h := c3_amended_turn_orchestration sampleState "c1" "temp-user-1" "temp-ai-1" 0
    sampleUserRecord sampleAiRecord ["Hi", "!"]
    (by decide) (by decide) (by decide) (by decide) (by decide) (by decide) (by decide)
  exact h.2.2

/-- C4: the UI does not guard against a second concurrent send from the same
conversation. The only obstacle is the form's `disabled=\x7bisLoading\x7d`
attributes, but `isLoading` is also written by the fetch-messages effect:
while a send is in flight, clicking another sidebar conversation entry
(never disabled) and clicking back re-runs that effect, whose `finally`
clears `isLoading` before the first turn's `onComplete`/`onError` has run,
re-enabling the chat input; with a draft typed, the form can submit again,
and `handleSendMessage` performs no in-flight check, so the second send for
the same conversation proceeds and issues its backend calls. -/
theorem c4_concurrent_send_not_guarded (st : ChatState)
    (convId tu ta tu2 ta2 : String) (now now2 : Nat)
    (fetched : List Message) (draft : String)
    (userPersist2 : Except String Message) (upstream2 : UpstreamOutcome)
    (aiPersist2 : Except String Message)
    (hdraft : jsTrim draft ≠ "") (hconv : convId ≠ "") :
    chatInputDisabled
        (fetchMessagesEffect (startTurnState st convId tu ta now) true (.ok fetched))
      = false ∧
    canSubmitSend
        (typeDraft draft
          (fetchMessagesEffect (startTurnState st convId tu ta now) true (.ok fetched)))
      = true ∧
    (runChatTurn
        (typeDraft draft
          (fetchMessagesEffect (startTurnState st convId tu ta now) true (.ok fetched)))
        true convId tu2 ta2 now2 userPersist2 upstream2 aiPersist2).2 ≠ [] := by
  have hb : (jsTrim draft == "") = false := beq_eq_false_iff_ne.mpr hdraft
  have hne2 : jsTrim (typeDraft draft
      (fetchMessagesEffect (startTurnState st convId tu ta now)
        true (.ok fetched))).newMessage ≠ "" := hdraft
  refine ⟨rfl, ?_, ?_⟩
  · simp [canSubmitSend, chatInputDisabled, sendButtonDisabled, typeDraft,
      fetchMessagesEffect, hb]
  · unfold runChatTurn
    rw [if_neg (guard_passes hne2 hconv)]
    cases userPersist2 with
    | error d => simp
    | ok pu2 =>
        dsimp only []
        exact List.cons_ne_nil _ _

/-- C4 witness: with the concrete mid-flight state after a switch-and-return
fetch, the re-enabled input accepts the draft "again" and the second send
proceeds. -/
theorem c4_concurrent_send_not_guarded_witness :
    canSubmitSend
        (typeDraft "again"
          (fetchMessagesEffect
            (startTurnState sampleState "c1" "temp-user-1" "temp-ai-1" 0)
            true (.ok []))) = true ∧
    (runChatTurn
        (typeDraft "again"
          (fetchMessagesEffect
            (startTurnState sampleState "c1" "temp-user-1" "temp-ai-1" 0)
            true (.ok [])))
        true "c1" "temp-user-2" "temp-ai-2" 1 (.ok sampleUserRecord)
        (.ok ["More"]) (.ok sampleAiRecord)).2 ≠ [] := by
  have h := c4_concurrent_send_not_guarded sampleState "c1" "temp-user-1" "temp-ai-1"
    "temp-user-2" "temp-ai-2" 0 1 [] "again" (.ok sampleUserRecord) (.ok ["More"])
    (.ok sampleAiRecord) (by decide) (by decide)
  exact ⟨h.2.1, h.2.2⟩

end AiChat
